import Mathlib

/-!
Shallow embedding of `kr_iphone17pm_silver512_monitor.py`: a stock monitor
that polls Apple's pickup API, detects per-store unavailable→available
transitions, sends Bark push notifications on each transition, and appends
availability rows to a CSV log.  Python values flowing through the script
are modelled by a small JSON value type with Python truthiness, `dict.get`
and `or`; the network and the clock are modelled as environment inputs
(`FetchOutcome`, `SendOutcome`, timestamp strings) consumed by otherwise
pure functions.
-/

namespace Monitor

/-- JSON values as decoded by Python's `json` module (dicts as key/value
lists with unique keys, insertion order kept). -/
inductive Json where
  | null : Json
  | bool (b : Bool) : Json
  | num (n : Int) : Json
  | str (s : String) : Json
  | arr (xs : List Json) : Json
  | obj (kvs : List (String × Json)) : Json

mutual

/-- Structural equality test on JSON values. -/
def Json.beq : Json → Json → Bool
  | .null, .null => true
  | .bool a, .bool b => a == b
  | .num a, .num b => a == b
  | .str a, .str b => a == b
  | .arr xs, .arr ys => beqArr xs ys
  | .obj xs, .obj ys => beqObj xs ys
  | _, _ => false

/-- Elementwise equality test on JSON arrays. -/
def beqArr : List Json → List Json → Bool
  | [], [] => true
  | x :: xs, y :: ys => Json.beq x y && beqArr xs ys
  | _, _ => false

/-- Elementwise equality test on JSON object entry lists. -/
def beqObj : List (String × Json) → List (String × Json) → Bool
  | [], [] => true
  | (k, v) :: xs, (l, w) :: ys => k == l && Json.beq v w && beqObj xs ys
  | _, _ => false

end

mutual

theorem Json.beq_refl : ∀ a : Json, Json.beq a a = true
  | .null => rfl
  | .bool b => by simp [Json.beq]
  | .num n => by simp [Json.beq]
  | .str s => by simp [Json.beq]
  | .arr xs => by simp [Json.beq, beqArr_refl xs]
  | .obj kvs => by simp [Json.beq, beqObj_refl kvs]

theorem beqArr_refl : ∀ xs : List Json, beqArr xs xs = true
  | [] => rfl
  | x :: xs => by simp [beqArr, Json.beq_refl x, beqArr_refl xs]

theorem beqObj_refl : ∀ kvs : List (String × Json), beqObj kvs kvs = true
  | [] => rfl
  | (k, v) :: kvs => by simp [beqObj, Json.beq_refl v, beqObj_refl kvs]

end

mutual

theorem Json.beq_sound : ∀ a b : Json, Json.beq a b = true → a = b
  | .null, .null, _ => rfl
  | .null, .bool _, h => by simp [Json.beq] at h
  | .null, .num _, h => by simp [Json.beq] at h
  | .null, .str _, h => by simp [Json.beq] at h
  | .null, .arr _, h => by simp [Json.beq] at h
  | .null, .obj _, h => by simp [Json.beq] at h
  | .bool _, .null, h => by simp [Json.beq] at h
  | .bool a, .bool b, h => by simp [Json.beq] at h; rw [h]
  | .bool _, .num _, h => by simp [Json.beq] at h
  | .bool _, .str _, h => by simp [Json.beq] at h
  | .bool _, .arr _, h => by simp [Json.beq] at h
  | .bool _, .obj _, h => by simp [Json.beq] at h
  | .num _, .null, h => by simp [Json.beq] at h
  | .num _, .bool _, h => by simp [Json.beq] at h
  | .num a, .num b, h => by simp [Json.beq] at h; rw [h]
  | .num _, .str _, h => by simp [Json.beq] at h
  | .num _, .arr _, h => by simp [Json.beq] at h
  | .num _, .obj _, h => by simp [Json.beq] at h
  | .str _, .null, h => by simp [Json.beq] at h
  | .str _, .bool _, h => by simp [Json.beq] at h
  | .str _, .num _, h => by simp [Json.beq] at h
  | .str a, .str b, h => by simp [Json.beq] at h; rw [h]
  | .str _, .arr _, h => by simp [Json.beq] at h
  | .str _, .obj _, h => by simp [Json.beq] at h
  | .arr _, .null, h => by simp [Json.beq] at h
  | .arr _, .bool _, h => by simp [Json.beq] at h
  | .arr _, .num _, h => by simp [Json.beq] at h
  | .arr _, .str _, h => by simp [Json.beq] at h
  | .arr xs, .arr ys, h => by
      simp only [Json.beq] at h
      rw [beqArr_sound xs ys h]
  | .arr _, .obj _, h => by simp [Json.beq] at h
  | .obj _, .null, h => by simp [Json.beq] at h
  | .obj _, .bool _, h => by simp [Json.beq] at h
  | .obj _, .num _, h => by simp [Json.beq] at h
  | .obj _, .str _, h => by simp [Json.beq] at h
  | .obj _, .arr _, h => by simp [Json.beq] at h
  | .obj xs, .obj ys, h => by
      simp only [Json.beq] at h
      rw [beqObj_sound xs ys h]

theorem beqArr_sound : ∀ xs ys : List Json, beqArr xs ys = true → xs = ys
  | [], [], _ => rfl
  | [], _ :: _, h => by simp [beqArr] at h
  | _ :: _, [], h => by simp [beqArr] at h
  | x :: xs, y :: ys, h => by
      simp only [beqArr, Bool.and_eq_true] at h
      rw [Json.beq_sound x y h.1, beqArr_sound xs ys h.2]

theorem beqObj_sound : ∀ xs ys : List (String × Json), beqObj xs ys = true → xs = ys
  | [], [], _ => rfl
  | [], _ :: _, h => by simp [beqObj] at h
  | _ :: _, [], h => by simp [beqObj] at h
  | (k, v) :: xs, (l, w) :: ys, h => by
      simp only [beqObj, Bool.and_eq_true] at h
      obtain ⟨⟨hk, hv⟩, ht⟩ := h
      rw [eq_of_beq hk, Json.beq_sound v w hv, beqObj_sound xs ys ht]

end

instance : DecidableEq Json := fun a b =>
  if h : Json.beq a b = true then isTrue (Json.beq_sound a b h)
  else isFalse (fun hh => h (hh ▸ Json.beq_refl a))

/-- Python truthiness of a JSON value: `None`, `False`, `0`, `""`, `[]`,
`{}` are falsy, everything else truthy. -/
def Json.isTruthy : Json → Bool
  | .null => false
  | .bool b => b
  | .num n => n != 0
  | .str s => s != ""
  | .arr xs => !xs.isEmpty
  | .obj kvs => !kvs.isEmpty

/-- First binding of a key in an object's key/value list. -/
def lookupKey (kvs : List (String × Json)) (k : String) : Option Json :=
  match kvs with
  | [] => none
  | (k', v) :: rest => if k' = k then some v else lookupKey rest k

/-- Python `d.get(k)` on a dict: the stored value, or `None` when the key
is absent.  Total on non-dicts (returning `None`); on every path exercised
by the script the receiver is a dict, enforced by the `or` guards in the
source. -/
def pyGet (j : Json) (k : String) : Json :=
  match j with
  | .obj kvs => (lookupKey kvs k).getD .null
  | _ => .null

/-- Python `d.get(k, default)`. -/
def pyGetD (j : Json) (k : String) (d : Json) : Json :=
  match j with
  | .obj kvs => (lookupKey kvs k).getD d
  | _ => d

/-- Python `a or b`: `a` when truthy, else `b`. -/
def pyOr (a b : Json) : Json :=
  if a.isTruthy then a else b

/-- Python `str()` of a JSON value as it appears inside an f-string. -/
def pyStr : Json → String
  | .null => "None"
  | .bool true => "True"
  | .bool false => "False"
  | .num n => toString n
  | .str s => s
  | .arr _ => "[...]"
  | .obj _ => "\x7b...\x7d"

/-- `{}` literal appearing in the `or {}` guards of the source. -/
def emptyObj : Json := Json.obj []

/-! ## Configuration (the script's defaults, env unset) -/

/-- Target SKU: KR market iPhone 17 Pro Max 512GB Silver. -/
def SKU : String := "MFYQ4KH/A"

/-- Seed store for the nearby search (Hongdae). -/
def SEED_STORE : String := "R764"

/-- Apple pickup API URL built from seed store and SKU. -/
def APPLE_API_URL : String :=
  "https://www.apple.com/kr/shop/retail/pickup-message?pl=true&searchNearby=true&store="
    ++ SEED_STORE ++ "&parts.0=" ++ SKU

/-! ## Apple API parsing (`fetch_availability`'s pure part) -/

/-- One normalized per-store record, the dict built for each store entry
inside `fetch_availability`. -/
structure Record where
  storeNumber : Json
  storeName : Json
  city : Json
  pickupDisplay : Json
  quote : Json
  deriving DecidableEq

/-- The per-store dict construction inside `fetch_availability`'s loop:
`pa = (s.get("partsAvailability") or {}).get(SKU) or {}`, then each field
via `.get`, with the quote resolved through the message-type fallbacks. -/
def parseStore (s : Json) : Record :=
  let pa := pyOr (pyGet (pyOr (pyGet s "partsAvailability") emptyObj) SKU) emptyObj
  { storeNumber := pyGet s "storeNumber"
    storeName := pyGet s "storeName"
    city := pyGet s "city"
    pickupDisplay := pyGet pa "pickupDisplay"
    quote := pyOr
      (pyOr
        (pyGet (pyOr (pyGet (pyOr (pyGet pa "messageTypes") emptyObj) "regular") emptyObj)
          "storePickupQuote")
        (pyGet pa "pickupSearchQuote"))
      (Json.str "") }

/-- `data.get("body", {}).get("stores", []) or []` and the list it yields. -/
def extractStores (data : Json) : List Json :=
  match pyOr (pyGetD (pyGetD data "body" emptyObj) "stores" (Json.arr [])) (Json.arr []) with
  | .arr xs => xs
  | _ => []

/-- The pure parsing step of `fetch_availability`: decoded response body to
normalized per-store records. -/
def parseStores (data : Json) : List Record :=
  (extractStores data).map parseStore

/-! ## Transition state (`last_flags` dict) -/

/-- The `last_flags: dict[str, bool]` map: insertion-ordered association
list with unique keys; lookup and assignment below give Python-dict
observable behaviour. -/
abbrev Flags := List (Json × Bool)

/-- `last_flags.get(sid)`: `some` stored flag, `none` when absent. -/
def Flags.get : Flags → Json → Option Bool
  | [], _ => none
  | (k, v) :: rest, q => if k = q then some v else Flags.get rest q

/-- `last_flags[sid] = b`: replace the binding if present, else append. -/
def Flags.set : Flags → Json → Bool → Flags
  | [], q, b => [(q, b)]
  | (k, v) :: rest, q, b => if k = q then (q, b) :: rest else (k, v) :: Flags.set rest q b

theorem Flags.get_set_same (f : Flags) (q : Json) (b : Bool) :
    (f.set q b).get q = some b := by
  induction f with
  | nil => simp [Flags.set, Flags.get]
  | cons kv rest ih =>
    obtain ⟨k, v⟩ := kv
    by_cases h : k = q
    · simp [Flags.set, h, Flags.get]
    · simp [Flags.set, h, Flags.get, ih]

theorem Flags.get_set_other (f : Flags) (q k : Json) (b : Bool) (h : k ≠ q) :
    (f.set q b).get k = f.get k := by
  induction f with
  | nil => simp [Flags.set, Flags.get, Ne.symm h]
  | cons kv rest ih =>
    obtain ⟨k', v⟩ := kv
    by_cases h' : k' = q
    · subst h'
      have hkk : ¬ k' = k := fun hh => h hh.symm
      simp [Flags.set, Flags.get, hkk]
    · simp [Flags.set, h', Flags.get, ih]

/-! ## Transition detection (the per-record loop body in `main`) -/

/-- `avail = r.get("pickupDisplay") == "available"`. -/
def availOf (r : Record) : Bool :=
  decide (r.pickupDisplay = Json.str "available")

/-- `sid = r.get("storeNumber") or r.get("storeName")`. -/
def sidOf (r : Record) : Json :=
  pyOr r.storeNumber r.storeName

/-- Python `not last_flags.get(sid)`: true on `None` and `False`, false
only on a stored `True`. -/
def flagNotTrue : Option Bool → Bool
  | some true => false
  | _ => true

/-- The `for r in res` loop of `main`: returns the updated `last_flags`
and, positionally for each record, the pair (row appended to
`avail_rows`?, `bark_send` triggered?). -/
def detectCycle (f : Flags) : List Record → Flags × List (Bool × Bool)
  | [] => (f, [])
  | r :: rest =>
    let avail := availOf r
    let sid := sidOf r
    let notif := avail && flagNotTrue (f.get sid)
    let out := detectCycle (f.set sid avail) rest
    (out.1, (avail, notif) :: out.2)

theorem detectCycle_length (f : Flags) (res : List Record) :
    (detectCycle f res).2.length = res.length := by
  induction res generalizing f with
  | nil => rfl
  | cons r rest ih => simp [detectCycle, ih]

theorem detectCycle_append (f : Flags) (a b : List Record) :
    detectCycle f (a ++ b) =
      ((detectCycle (detectCycle f a).1 b).1,
        (detectCycle f a).2 ++ (detectCycle (detectCycle f a).1 b).2) := by
  induction a generalizing f with
  | nil => simp [detectCycle]
  | cons r rest ih => simp [detectCycle, ih]

/-! ## Bark push helper (`bark_send`) -/

/-- The Bark-related configuration values; empty string = env var unset
(Python falsy), matching the script's defaults. -/
structure BarkConfig where
  deviceKey : String
  serverBase : String
  pushEndpoint : String
  group : String
  sound : String
  deriving DecidableEq

/-- The script's defaults with no Bark env vars set. -/
def defaultBark : BarkConfig :=
  ⟨"", "https://api.day.app", "", "Apple KR 17PM", "minuet"⟩

/-- What the environment does with one `requests.post` to the Bark
endpoint: the call raises, or returns a response with a status code, a
text body, and an optional decoded JSON body (`none` = `r.json()` raised). -/
inductive SendOutcome where
  | exn (msg : String)
  | resp (status : Nat) (text : String) (jbody : Option Json)
  deriving DecidableEq

/-- One HTTP POST issued by `bark_send`. -/
structure BarkSent where
  endpoint : String
  payload : Json
  deriving DecidableEq

/-- One console line printed through `log(...)`.  The constructor records
the `[DEBUG]`/`[INFO]`/`[WARN]`/`[ERROR]` prefix the source puts at the
front of the printed string; `plain` is a line without such a prefix. -/
inductive LogLine where
  | plain (text : String)
  | debug (text : String)
  | info (text : String)
  | warn (text : String)
  | error (text : String)
  deriving DecidableEq

/-- Is this console line a `[WARN]` line? -/
def isWarnLine : LogLine → Bool
  | .warn _ => true
  | _ => false

/-- The body of the `try` in `bark_send` once an endpoint is resolved:
one `requests.post`, whose failures are all caught locally — transport
exception, non-200 status, and a decoded non-OK `code` each produce one
warning line, and nothing propagates. -/
def barkPost (endpoint : String) (payload : Json) (out : SendOutcome) :
    Option BarkSent × List LogLine :=
  match out with
  | .exn msg => (some (BarkSent.mk endpoint payload), [.warn ("Bark push exception: " ++ msg)])
  | .resp status text jbody =>
    if status ≠ 200 then
      (some (BarkSent.mk endpoint payload),
        [.warn ("Bark push failed HTTP " ++ toString status ++ ": " ++ text.take 200)])
    else
      match jbody with
      | none => (some (BarkSent.mk endpoint payload), [])
      | some jr =>
        if pyGet jr "code" ∈ [Json.null, Json.num 0, Json.num 200] then
          (some (BarkSent.mk endpoint payload), [])
        else
          (some (BarkSent.mk endpoint payload),
            [.warn ("Bark returned non-OK payload: " ++ pyStr jr)])

/-- The JSON payload `bark_send` POSTs: title, body, group, sound, and
the optional url. -/
def barkPayload (cfg : BarkConfig) (title body : String) (url : Option String) : Json :=
  Json.obj
    ([("title", Json.str title), ("body", Json.str body),
      ("group", Json.str cfg.group), ("sound", Json.str cfg.sound)] ++
      (match url with | some u => [("url", Json.str u)] | none => []))

/-- `bark_send(title, body, url)`: resolves the endpoint (device key wins
over full-endpoint override, neither set means skip with an INFO line and
no request), then POSTs the payload via `barkPost`.  The surrounding
`try/except` means the function always returns normally, which the
embedding reflects by being a total function.  Returns the POST made (if
any) and the console lines printed. -/
def bark_send (cfg : BarkConfig) (title body : String) (url : Option String)
    (out : SendOutcome) : Option BarkSent × List LogLine :=
  let payload := barkPayload cfg title body url
  if cfg.deviceKey ≠ "" then
    barkPost (cfg.serverBase ++ "/" ++ cfg.deviceKey) payload out
  else if cfg.pushEndpoint ≠ "" then
    barkPost cfg.pushEndpoint payload out
  else
    (none, [.info "Bark not configured (set BARK_DEVICE_KEY or BARK_PUSH_ENDPOINT) — skipping push."])

/-! ## Fetch effects and the main loop -/

/-- What the environment does with the `session.get` of one cycle:
`ok` = response obtained, `raise_for_status` passed and `r.json()` decoded
to `data`; `httpExn` = non-2xx status so `raise_for_status` raised
`requests.HTTPError`; `jsonExn` = body not JSON so `r.json()` raised;
`transportExn` = the GET itself raised a `requests.RequestException`;
`otherExn` = any other exception raised inside the cycle's `try` block
before the per-record loop runs. -/
inductive FetchOutcome where
  | ok (status : Nat) (data : Json)
  | transportExn (msg : String)
  | httpExn (status : Nat) (msg : String)
  | jsonExn (status : Nat) (text : String)
  | otherExn (msg : String)
  deriving DecidableEq

/-- The exception classes distinguished by the loop's `except` clauses:
`requests.HTTPError`, other `requests.RequestException` (which includes
`requests.exceptions.JSONDecodeError`), and any other `Exception`. -/
inductive FetchErr where
  | httpError (msg : String)
  | requestError (msg : String)
  | unknownError (msg : String)
  deriving DecidableEq

/-- The `[DEBUG] HTTP <status> ← <url>` line `fetch_availability` prints
whenever a response was obtained. -/
def debugLine (status : Nat) : LogLine :=
  .debug ("HTTP " ++ toString status ++ " ← " ++ APPLE_API_URL)

/-- `fetch_availability(session)`: console lines printed and either the
parsed per-store records or the exception that propagates to the loop
(`requests.exceptions.JSONDecodeError` is a `RequestException`, so the
`jsonExn` case surfaces as one). -/
def fetch_availability : FetchOutcome → List LogLine × Except FetchErr (List Record)
  | .ok status data => ([debugLine status], .ok (parseStores data))
  | .transportExn msg => ([], .error (.requestError msg))
  | .httpExn status msg => ([debugLine status], .error (.httpError msg))
  | .jsonExn status text =>
      ([debugLine status, .error ("JSON parse failed. First 300 chars: " ++ text.take 300)],
        .error (.requestError text))
  | .otherExn msg => ([], .error (.unknownError msg))

/-- The single warning line the loop's `except` clauses print for an
escaped exception. -/
def warnLineOf : FetchErr → LogLine
  | .httpError msg => .warn ("HTTP error: " ++ msg)
  | .requestError msg => .warn ("Network exception: " ++ msg)
  | .unknownError msg => .warn ("Unknown exception: " ++ msg)

/-- A CSV log row: capture timestamps, the SKU, and the record fields. -/
structure Row where
  ts_utc : String
  ts_kr : String
  sku : String
  record : Record
  deriving DecidableEq

/-- The compact per-round console line. -/
def briefLine (ts_kr : String) (res : List Record) : LogLine :=
  .plain ("[" ++ ts_kr ++ "] " ++ String.intercalate " | "
    (res.map (fun r => pyStr r.storeName ++ ":" ++ pyStr r.pickupDisplay)))

/-- Notification title for a newly-available store. -/
def titleOf (r : Record) : String :=
  "In stock: " ++ pyStr r.storeName ++ " - iPhone 17 Pro Max 512GB Silver"

/-- Notification body for a newly-available store. -/
def bodyOf (ts_kr : String) (r : Record) : String :=
  ts_kr ++ " pickup available (" ++ pyStr r.city ++ ")\n" ++ pyStr r.quote

/-- The fixed product-info link passed to `bark_send`. -/
def productUrl : String := "https://www.apple.com/kr/shop/buy-iphone/iphone-17-pro"

/-- The records of the cycle for which `bark_send` is triggered, in input
order. -/
def notifiedRecs (f : Flags) (res : List Record) : List Record :=
  ((res.zip (detectCycle f res).2).filter (fun p => p.2.2)).map Prod.fst

/-- The records of the cycle appended to `avail_rows`, in input order. -/
def rowRecs (f : Flags) (res : List Record) : List Record :=
  ((res.zip (detectCycle f res).2).filter (fun p => p.2.1)).map Prod.fst

theorem rowRecs_eq_filter (f : Flags) (res : List Record) :
    rowRecs f res = res.filter availOf := by
  induction res generalizing f with
  | nil => rfl
  | cons r rest ih =>
    simp only [rowRecs, detectCycle, List.zip_cons_cons, List.filter_cons]
    cases havail : availOf r <;>
      simpa [havail] using ih (f.set (sidOf r) (availOf r))

/-- Everything one loop iteration does besides sleeping: the new
transition state, the console lines printed, the Bark POSTs issued, and
the rows appended to the CSV. -/
structure CycleResult where
  flags : Flags
  console : List LogLine
  posts : List BarkSent
  rows : List Row
  deriving DecidableEq

/-- One iteration of the `while` loop body in `main` (the `try/except`
block): fetch, print the brief line, walk the records notifying on
transitions, and append the available rows; any escaped exception is
caught and turned into one warning line, leaving state and log untouched.
`sends` gives the environment's response to the n-th Bark POST of the
cycle. -/
def runBody (cfg : BarkConfig) (sends : Nat → SendOutcome) (ts_utc ts_kr : String)
    (f : Flags) (o : FetchOutcome) : CycleResult :=
  match fetch_availability o with
  | (lines, .error e) => ⟨f, lines ++ [warnLineOf e], [], []⟩
  | (lines, .ok res) =>
    let calls := (notifiedRecs f res).enum.map
      (fun p => bark_send cfg (titleOf p.2) (bodyOf ts_kr p.2) (some productUrl) (sends p.1))
    { flags := (detectCycle f res).1
      console := lines ++ [briefLine ts_kr res] ++ (calls.map Prod.snd).flatten
      posts := calls.filterMap Prod.fst
      rows := (rowRecs f res).map (fun r => ⟨ts_utc, ts_kr, SKU, r⟩) }

/-- The environment of one prospective loop iteration: the stop flag as
read at the top of the loop, the fetch outcome, the two timestamps, and
the Bark POST outcomes. -/
structure Env where
  stop : Bool
  outcome : FetchOutcome
  ts_utc : String
  ts_kr : String
  sends : Nat → SendOutcome

/-- The `while not stop["flag"]` loop of `main`, run against a finite
trace of iteration environments: stops at the first environment whose
stop flag is set, otherwise executes the body and continues with the
updated `last_flags`. -/
def runLoop (cfg : BarkConfig) : Flags → List Env → List CycleResult
  | _, [] => []
  | f, e :: rest =>
    if e.stop then []
    else
      let c := runBody cfg e.sends e.ts_utc e.ts_kr f e.outcome
      c :: runLoop cfg c.flags rest

/-! ## CSV log file (`ensure_log` / `append_log`) -/

/-- The header row `pandas` writes for the empty DataFrame. -/
def csvHeader : String :=
  "ts_utc,ts_kr,sku,storeName,storeNumber,city,pickupDisplay,quote"

/-- `ensure_log()`: the log file as a list of lines (`none` = file does
not exist); creates it with only the fixed header when absent, otherwise
touches nothing. -/
def ensure_log : Option (List String) → Option (List String)
  | none => some [csvHeader]
  | some content => some content

/-- One CSV row in the fixed column order selected by `append_log`. -/
def rowCsv (r : Row) : String :=
  String.intercalate ","
    [r.ts_utc, r.ts_kr, r.sku, pyStr r.record.storeName, pyStr r.record.storeNumber,
      pyStr r.record.city, pyStr r.record.pickupDisplay, pyStr r.record.quote]

/-- `append_log(rows)`: no-op on an empty row list, otherwise appends the
serialized rows (header never rewritten, `mode="a"`). -/
def append_log (file : Option (List String)) (rows : List Row) : Option (List String) :=
  if rows.isEmpty then file
  else
    match file with
    | none => some (rows.map rowCsv)
    | some content => some (content ++ rows.map rowCsv)

/-! ## Helper lemmas -/

/-- A failing Bark delivery: the POST raised, or came back non-200. -/
def sendFailed : SendOutcome → Bool
  | .exn _ => true
  | .resp status _ _ => status ≠ 200

theorem barkPost_fst (e : String) (p : Json) (out : SendOutcome) :
    (barkPost e p out).1 = some (BarkSent.mk e p) := by
  cases out with
  | exn msg => rfl
  | resp st tx jb =>
    by_cases h : st = 200
    · subst h
      cases jb with
      | none => rfl
      | some jr =>
        by_cases hc : pyGet jr "code" ∈ [Json.null, Json.num 0, Json.num 200] <;>
          simp [barkPost, hc]
    · simp [barkPost, h]

theorem barkPost_fail_one_warning (e : String) (p : Json) (out : SendOutcome)
    (hf : sendFailed out = true) :
    (barkPost e p out).2.countP isWarnLine = 1 := by
  cases out with
  | exn msg => simp [barkPost, isWarnLine, List.countP_cons]
  | resp st tx jb =>
    simp only [sendFailed, decide_eq_true_eq] at hf
    simp [barkPost, hf, isWarnLine, List.countP_cons]

theorem bark_send_configured (cfg : BarkConfig) (title body : String) (url : Option String)
    (out : SendOutcome) (hc : cfg.deviceKey ≠ "" ∨ cfg.pushEndpoint ≠ "") :
    ∃ ep, bark_send cfg title body url out
      = barkPost ep (barkPayload cfg title body url) out := by
  by_cases hd : cfg.deviceKey = ""
  · rcases hc with h | h
    · exact absurd hd h
    · exact ⟨cfg.pushEndpoint, by simp [bark_send, hd, h]⟩
  · exact ⟨cfg.serverBase ++ "/" ++ cfg.deviceKey, by simp [bark_send, hd]⟩

/-! ## Concrete fixtures used by the witnesses and scenario claims -/

/-- A store entry of the Apple response with the given pickup status. -/
def storeJson (status : String) : Json :=
  Json.obj [("storeNumber", Json.str "R764"), ("storeName", Json.str "Hongdae"),
    ("city", Json.str "Seoul"),
    ("partsAvailability", Json.obj [(SKU, Json.obj
      [("pickupDisplay", Json.str status),
        ("pickupSearchQuote", Json.str "Available today")])])]

/-- A whole response body with one store per given status. -/
def dataJson (statuses : List String) : Json :=
  Json.obj [("body", Json.obj [("stores", Json.arr (statuses.map storeJson))])]

/-- Environment in which every Bark POST succeeds. -/
def sendsOK : Nat → SendOutcome :=
  fun _ => .resp 200 "ok" (some (Json.obj [("code", Json.num 200)]))

/-- Environment in which every Bark POST raises (connection refused). -/
def sendsFail : Nat → SendOutcome :=
  fun _ => .exn "connection refused"

/-- A configured Bark setup (device key present). -/
def cfgKey : BarkConfig := { defaultBark with deviceKey := "testkey" }

/-- A non-stopping loop iteration whose fetch succeeds with the given
per-store statuses. -/
def okEnv (statuses : List String) : Env :=
  ⟨false, .ok 200 (dataJson statuses), "2025-10-10 00:00:00 UTC",
    "2025-10-10 09:00:00 KST", sendsOK⟩

/-! ## Claims -/

/-- C1: in any cycle, for the record at any position of the fetched list
(written as the split `pre ++ r :: post`), a notification send is
triggered for that record if and only if its pickupDisplay equals
"available" and the stored flag for its identifier — as of processing
that record — is not true; and after processing the record the map entry
for its identifier is unconditionally the boolean
(pickupDisplay == "available"). -/
theorem claim1_notify_iff_fresh_available (f : Flags) (pre post : List Record) (r : Record) :
    (detectCycle f (pre ++ r :: post)).2[pre.length]?
        = some (availOf r, availOf r && flagNotTrue ((detectCycle f pre).1.get (sidOf r)))
      ∧ (detectCycle f (pre ++ [r])).1.get (sidOf r) = some (availOf r) := by
  constructor
  · rw [detectCycle_append,
      List.getElem?_append_right (le_of_eq (detectCycle_length f pre)),
      detectCycle_length, Nat.sub_self]
    simp [detectCycle]
  · rw [detectCycle_append]
    simp [detectCycle, Flags.get_set_same]

/-- C2: one location across five cycles with availability sequence
[unavailable, available, available, unavailable, available], from the
empty transition map: per cycle the (notifications, log rows) counts are
(0,0), (1,1), (0,1), (0,0), (1,1) — notifications exactly in cycles 2 and
5, rows exactly in cycles 2, 3 and 5. -/
theorem claim2_five_cycle_transition_counts :
    ((runLoop cfgKey []
          ((["unavailable", "available", "available", "unavailable", "available"]).map
            (fun st => okEnv [st]))).map (fun c => (c.posts.length, c.rows.length)))
      = [(0, 0), (1, 1), (0, 1), (0, 0), (1, 1)] := by decide

/-- C3: the loop runs exactly the prefix of the trace up to the first set
stop flag — its length never depends on the fetch outcomes, so no
exception of the fetch/detect/log sequence terminates it; and on any
cycle whose fetch raises, the body catches it, logs the categorizing
warning line after the lines already printed, and leaves state, posts and
rows untouched for the next iteration. -/
theorem claim3_errors_never_fatal (cfg : BarkConfig) (f : Flags) (trace : List Env) :
    ((runLoop cfg f trace).length = (trace.takeWhile (fun e => !e.stop)).length)
    ∧ (∀ (sends : Nat → SendOutcome) (u k : String) (o : FetchOutcome) (e : FetchErr),
        (fetch_availability o).2 = Except.error e →
          runBody cfg sends u k f o
            = ⟨f, (fetch_availability o).1 ++ [warnLineOf e], [], []⟩) := by
  constructor
  · induction trace generalizing f with
    | nil => rfl
    | cons e rest ih =>
      by_cases hs : e.stop <;> simp [runLoop, List.takeWhile_cons, hs, ih]
  · intro sends u k o e h
    cases o with
    | ok st data => simp [fetch_availability] at h
    | transportExn msg =>
      simp only [fetch_availability, Except.error.injEq] at h
      subst h; rfl
    | httpExn st msg =>
      simp only [fetch_availability, Except.error.injEq] at h
      subst h; rfl
    | jsonExn st text =>
      simp only [fetch_availability, Except.error.injEq] at h
      subst h; rfl
    | otherExn msg =>
      simp only [fetch_availability, Except.error.injEq] at h
      subst h; rfl

/-- C3 witness: at a 503 fetch the loop still counts the iteration and
the body logs the HTTP-error warning, aborting nothing. -/
theorem claim3_witness :
    ((runLoop defaultBark [] [⟨false, .httpExn 503 "503 Server Error", "u", "k", sendsOK⟩]).length
        = (([⟨false, .httpExn 503 "503 Server Error", "u", "k", sendsOK⟩] : List Env).takeWhile
            (fun e => !e.stop)).length)
    ∧ runBody defaultBark sendsOK "u" "k" [] (.httpExn 503 "503 Server Error")
        = ⟨[], (fetch_availability (.httpExn 503 "503 Server Error")).1
            ++ [warnLineOf (.httpError "503 Server Error")], [], []⟩ :=
  ⟨(claim3_errors_never_fatal defaultBark []
      [⟨false, .httpExn 503 "503 Server Error", "u", "k", sendsOK⟩]).1,
    (claim3_errors_never_fatal defaultBark [] []).2 sendsOK "u" "k"
      (.httpExn 503 "503 Server Error") (.httpError "503 Server Error") rfl⟩

/-- C4: a failing notification delivery (transport exception or non-200
response) is caught inside `bark_send`: it produces exactly one warning
line, the single POST was attempted (no retry — one call makes at most
one POST), and for every choice of delivery outcomes the cycle still
appends exactly the availability rows of the currently-available
records. -/
theorem claim4_notify_failure_best_effort (cfg : BarkConfig) (title body : String)
    (url : Option String) (out : SendOutcome)
    (hc : cfg.deviceKey ≠ "" ∨ cfg.pushEndpoint ≠ "") (hf : sendFailed out = true) :
    ((bark_send cfg title body url out).2.countP isWarnLine = 1
        ∧ (bark_send cfg title body url out).1.isSome = true)
      ∧ ∀ (sends : Nat → SendOutcome) (u k : String) (f : Flags) (st : Nat) (data : Json),
          (runBody cfg sends u k f (.ok st data)).rows
            = ((parseStores data).filter availOf).map (fun r => ⟨u, k, SKU, r⟩) := by
  constructor
  · obtain ⟨ep, heq⟩ := bark_send_configured cfg title body url out hc
    rw [heq, barkPost_fst]
    exact ⟨barkPost_fail_one_warning ep _ out hf, rfl⟩
  · intro sends u k f st data
    simp only [runBody, fetch_availability]
    rw [rowRecs_eq_filter]

/-- C4 witness: with a device key configured and the push endpoint
unreachable, the send produces one warning and the newly-available row is
still appended. -/
theorem claim4_witness :
    (((bark_send cfgKey "t" "b" none (.exn "connection refused")).2.countP isWarnLine = 1)
        ∧ (bark_send cfgKey "t" "b" none (.exn "connection refused")).1.isSome = true)
    ∧ (runBody cfgKey sendsFail "u" "k" [] (.ok 200 (dataJson ["available"]))).rows
        = ((parseStores (dataJson ["available"])).filter availOf).map (fun r => ⟨"u", "k", SKU, r⟩) :=
  ⟨(claim4_notify_failure_best_effort cfgKey "t" "b" none (.exn "connection refused")
      (Or.inl (by decide)) (by decide)).1,
    (claim4_notify_failure_best_effort cfgKey "t" "b" none (.exn "connection refused")
      (Or.inl (by decide)) (by decide)).2 sendsFail "u" "k" [] 200 (dataJson ["available"])⟩

/-- C5: cold start — from the empty transition map, a store reported
available on the very first cycle triggers exactly one notification in
that cycle. -/
theorem claim5_cold_start_one_notification :
    (runBody cfgKey sendsOK "u" "k" [] (.ok 200 (dataJson ["available"]))).posts.length = 1
    ∧ (notifiedRecs [] (parseStores (dataJson ["available"]))).length = 1 := by decide

/-- C6: a store entry whose partsAvailability sub-object for the target
SKU is missing or null parses without failing: the record's pickupDisplay
resolves to the absent value (`None`) and its quote to the empty
string. -/
theorem claim6_missing_availability_is_safe (s : Json)
    (h : pyGet s "partsAvailability" = Json.null
        ∨ ∃ kvs, pyGet s "partsAvailability" = Json.obj kvs
            ∧ pyGet (Json.obj kvs) SKU = Json.null) :
    (parseStore s).pickupDisplay = Json.null ∧ (parseStore s).quote = Json.str "" := by
  have hpa : pyOr (pyGet (pyOr (pyGet s "partsAvailability") emptyObj) SKU) emptyObj
      = emptyObj := by
    rcases h with h0 | ⟨kvs, hk, hsku⟩
    · rw [h0]; rfl
    · rw [hk]
      cases kvs with
      | nil => rfl
      | cons a l =>
        have h1 : pyOr (Json.obj (a :: l)) emptyObj = Json.obj (a :: l) := rfl
        rw [h1, hsku]; rfl
  simp only [parseStore, hpa]
  exact ⟨rfl, rfl⟩

/-- C6 witness: a store entry with no partsAvailability key at all. -/
theorem claim6_witness :
    (parseStore (Json.obj [("storeName", Json.str "Hongdae")])).pickupDisplay = Json.null
    ∧ (parseStore (Json.obj [("storeName", Json.str "Hongdae")])).quote = Json.str "" :=
  claim6_missing_availability_is_safe (Json.obj [("storeName", Json.str "Hongdae")])
    (Or.inl (by decide))

/-- C7: `ensure_log` is idempotent — a second call changes nothing, and on
an existing file it never truncates or alters the content (so the header
is written at most once, on creation). -/
theorem claim7_ensure_log_idempotent :
    (∀ fs, ensure_log (ensure_log fs) = ensure_log fs)
    ∧ (∀ content, ensure_log (some content) = some content) :=
  ⟨fun fs => by cases fs <;> rfl, fun _ => rfl⟩

/-- C8: endpoint resolution precedence of `bark_send` — a configured
device key always wins and the POST goes to serverBase/deviceKey; with no
device key but a full endpoint override, the POST goes to the override;
with neither, no POST is made and the only console line is the
informational skip message. -/
theorem claim8_endpoint_precedence (cfg : BarkConfig) (title body : String)
    (url : Option String) (out : SendOutcome) :
    (cfg.deviceKey ≠ "" →
        ((bark_send cfg title body url out).1).map BarkSent.endpoint
          = some (cfg.serverBase ++ "/" ++ cfg.deviceKey))
    ∧ (cfg.deviceKey = "" → cfg.pushEndpoint ≠ "" →
        ((bark_send cfg title body url out).1).map BarkSent.endpoint
          = some cfg.pushEndpoint)
    ∧ (cfg.deviceKey = "" → cfg.pushEndpoint = "" →
        (bark_send cfg title body url out).1 = none
          ∧ (bark_send cfg title body url out).2
            = [.info "Bark not configured (set BARK_DEVICE_KEY or BARK_PUSH_ENDPOINT) — skipping push."]) := by
  refine ⟨fun h => ?_, fun h1 h2 => ?_, fun h1 h2 => ?_⟩
  · simp [bark_send, h, barkPost_fst]
  · simp [bark_send, h1, h2, barkPost_fst]
  · simp [bark_send, h1, h2]

/-- C8 witness: device key set — the POST goes to serverBase/key. -/
theorem claim8_witness :
    ((bark_send ⟨"KEY", "https://api.day.app", "", "g", "snd"⟩ "t" "b" none
        (.resp 200 "ok" none)).1).map BarkSent.endpoint = some "https://api.day.app/KEY" :=
  (claim8_endpoint_precedence ⟨"KEY", "https://api.day.app", "", "g", "snd"⟩ "t" "b" none
      (.resp 200 "ok" none)).1 (by decide)

/-- C9: every fetch-path error handled in a cycle — transport failure,
non-success HTTP status, or malformed JSON — yields exactly one warning
line on the console for that cycle. -/
theorem claim9_one_warning_per_handled_error (cfg : BarkConfig) (sends : Nat → SendOutcome)
    (u k : String) (f : Flags) (o : FetchOutcome) (e : FetchErr)
    (h : (fetch_availability o).2 = Except.error e) :
    ((runBody cfg sends u k f o).console.countP isWarnLine) = 1 := by
  cases o with
  | ok st data => simp [fetch_availability] at h
  | transportExn msg =>
      simp [runBody, fetch_availability, warnLineOf, isWarnLine, List.countP_cons,
        List.countP_append, debugLine]
  | httpExn st msg =>
      simp [runBody, fetch_availability, warnLineOf, isWarnLine, List.countP_cons,
        List.countP_append, debugLine]
  | jsonExn st text =>
      simp [runBody, fetch_availability, warnLineOf, isWarnLine, List.countP_cons,
        List.countP_append, debugLine]
  | otherExn msg =>
      simp [runBody, fetch_availability, warnLineOf, isWarnLine, List.countP_cons,
        List.countP_append, debugLine]

/-- C9 witness: a malformed-JSON cycle prints exactly one warning line
(the `[ERROR]` parse line is not a warning). -/
theorem claim9_witness :
    ((runBody defaultBark sendsOK "u" "k" [] (.jsonExn 200 "<html>")).console.countP
      isWarnLine) = 1 :=
  claim9_one_warning_per_handled_error defaultBark sendsOK "u" "k" [] (.jsonExn 200 "<html>")
    (.requestError "<html>") rfl

/-- C10: a flag-map entry is written in a cycle only for identifiers of
records present in that cycle's list — an absent location keeps its
previous flag — and consequently a store seen available, then absent from
the response, then available again, triggers no new notification (counts
per cycle 1, 0, 0). -/
theorem claim10_absent_location_keeps_flag (f : Flags) (res : List Record) (k : Json)
    (h : ∀ r ∈ res, sidOf r ≠ k) :
    ((detectCycle f res).1.get k = f.get k)
    ∧ ((runLoop cfgKey [] [okEnv ["available"], okEnv [], okEnv ["available"]]).map
        (fun c => c.posts.length) = [1, 0, 0]) := by
  have main : ∀ (l : List Record) (g : Flags), (∀ r ∈ l, sidOf r ≠ k) →
      (detectCycle g l).1.get k = g.get k := by
    intro l
    induction l with
    | nil => intro g _; rfl
    | cons r rest ih =>
      intro g h'
      simp only [detectCycle]
      rw [ih _ (fun r' hr' => h' r' (List.mem_cons_of_mem _ hr'))]
      exact Flags.get_set_other g (sidOf r) k (availOf r)
        (Ne.symm (h' r (List.mem_cons_self r rest)))
  exact ⟨main res f h, by decide⟩

/-- C10 witness: a store keyed differently from every fetched record
keeps its stored flag across the cycle. -/
theorem claim10_witness :
    (Flags.get (detectCycle [(Json.str "R100", true)] (parseStores (dataJson ["available"]))).1
        (Json.str "R100") = Flags.get [(Json.str "R100", true)] (Json.str "R100"))
    ∧ ((runLoop cfgKey [] [okEnv ["available"], okEnv [], okEnv ["available"]]).map
        (fun c => c.posts.length) = [1, 0, 0]) :=
  claim10_absent_location_keeps_flag [(Json.str "R100", true)]
    (parseStores (dataJson ["available"])) (Json.str "R100") (by decide)

end Monitor
